import Mathlib

/-!
Shallow embedding of the venue-matching core of the event-venue-marketplace
backend (`src/backend/app`), together with proofs checking the repository's
natural-language specification against the code.

Embedding conventions:
* Python floats are modelled as exact rationals (`ℚ`); every constant used by
  the scorer (0.7, 1.2, 0.33, ...) is exactly representable and all score
  arithmetic stays in small decimals, so no rounding behaviour is relevant.
* Python `Optional[...]` fields become `Option ...`; Python truthiness on an
  optional number (`not venue.base_price`) is modelled explicitly (absent or
  zero is falsy), likewise for optional strings (absent or empty is falsy).
* Fallible operations return `Except PyExc ...`; an uncaught Python exception
  is an `Except.error`.
* The external text-generation service (`anthropic` client) is not code of the
  repository; its behaviour at a call site is an oracle argument
  (`Except PyExc (List String)`: the `message.content` block list on success,
  an exception otherwise).  Everything else is translated from the source.
-/

/-! ## Enums (`app/models/enums.py`) -/

/-- `Borough` enum (`app/models/enums.py`). -/
inductive Borough where
  | manhattan
  | brooklyn
  | queens
  | bronx
  | staten_island
deriving DecidableEq, Repr

/-- The string payload of the `str`-valued `Borough` enum member. -/
def Borough.value : Borough → String
  | .manhattan => "manhattan"
  | .brooklyn => "brooklyn"
  | .queens => "queens"
  | .bronx => "bronx"
  | .staten_island => "staten_island"

/-- `FoodBevLevel` enum. -/
inductive FoodBevLevel where
  | none
  | light_bites
  | full_catering
deriving DecidableEq, Repr

/-- String payload of `FoodBevLevel`. -/
def FoodBevLevel.value : FoodBevLevel → String
  | .none => "none"
  | .light_bites => "light_bites"
  | .full_catering => "full_catering"

/-- `AlcoholLevel` enum. -/
inductive AlcoholLevel where
  | none
  | beer_wine
  | full_bar
deriving DecidableEq, Repr

/-- String payload of `AlcoholLevel`. -/
def AlcoholLevel.value : AlcoholLevel → String
  | .none => "none"
  | .beer_wine => "beer_wine"
  | .full_bar => "full_bar"

/-- `AVNeeds` enum. -/
inductive AVNeeds where
  | none
  | basic_mic
  | full_setup
deriving DecidableEq, Repr

/-- String payload of `AVNeeds`. -/
def AVNeeds.value : AVNeeds → String
  | .none => "none"
  | .basic_mic => "basic_mic"
  | .full_setup => "full_setup"

/-! ## Data model (`app/models/venue.py`, `app/models/brief.py`)

Only the columns the matching-and-explanation core reads are embedded; the
remaining columns (timestamps, owner ids, free-text notes, relationships) are
never consulted by the code under verification. -/

/-- `Venue` ORM model (`app/models/venue.py`), restricted to the columns read
by the matcher and explainer.  `capacity_min`/`capacity_max` are `Integer`
columns (`ℤ`), the price columns are nullable `Float` (`Option ℚ`),
`neighborhood` is a nullable `String`, `verification_status` a `String`. -/
structure Venue where
  id : ℕ
  name : String
  borough : Borough
  neighborhood : Option String
  capacity_min : ℤ
  capacity_max : ℤ
  base_price : Option ℚ
  min_spend : Option ℚ
  verification_status : String
deriving DecidableEq, Repr

/-- `EventBrief` ORM model (`app/models/brief.py`), restricted to the columns
read by the matcher and explainer. -/
structure Brief where
  id : ℕ
  headcount : ℤ
  borough_pref : Option Borough
  neighborhood_pref : Option String
  budget_min : Option ℚ
  budget_max : ℚ
  food_bev_level : FoodBevLevel
  alcohol_level : AlcoholLevel
  av_needs : AVNeeds
deriving DecidableEq, Repr

/-- Python truthiness of an optional string: `None` and `""` are falsy. -/
def truthyStr : Option String → Bool
  | Option.none => false
  | some s => decide (s ≠ "")

/-- Python truthiness of an optional float: `None` and `0.0` are falsy. -/
def truthyNum : Option ℚ → Bool
  | Option.none => false
  | some q => decide (q ≠ 0)

/-- Whether the first character list starts the second one (helper for the
substring test below). -/
def matchesAt : List Char → List Char → Bool
  | [], _ => true
  | _ :: _, [] => false
  | a :: as, b :: bs => a = b && matchesAt as bs

/-- Python's substring containment `needle in hay`, on character lists:
`needle` occurs contiguously somewhere in `hay`. -/
def containsChars (needle : List Char) : List Char → Bool
  | [] => needle.isEmpty
  | c :: rest => matchesAt needle (c :: rest) || containsChars needle rest

/-! ## Scorer (`app/services/matcher.py`, class `VenueMatcher`) -/

namespace VenueMatcher

/-- `WEIGHT_CAPACITY` class constant. -/
def WEIGHT_CAPACITY : ℚ := 30
/-- `WEIGHT_PRICE` class constant. -/
def WEIGHT_PRICE : ℚ := 25
/-- `WEIGHT_LOCATION` class constant. -/
def WEIGHT_LOCATION : ℚ := 20
/-- `WEIGHT_AMENITIES` class constant. -/
def WEIGHT_AMENITIES : ℚ := 15
/-- `WEIGHT_AVAILABILITY` class constant. -/
def WEIGHT_AVAILABILITY : ℚ := 10

/-- `VenueMatcher._score_capacity`.  `headcount <= venue.capacity_max * 1.2`
compares the integer headcount with a float product, hence the casts to `ℚ`.
The trailing `return 0` of the Python function is kept as the final `else`. -/
def score_capacity (venue : Venue) (brief : Brief) : ℚ :=
  let headcount := brief.headcount
  if venue.capacity_min ≤ headcount ∧ headcount ≤ venue.capacity_max then
    WEIGHT_CAPACITY
  else if headcount > venue.capacity_max then
    if (headcount : ℚ) ≤ (venue.capacity_max : ℚ) * 1.2 then WEIGHT_CAPACITY * 0.7
    else 0
  else if headcount < venue.capacity_min then
    if (headcount : ℚ) ≥ (venue.capacity_min : ℚ) * 0.8 then WEIGHT_CAPACITY * 0.7
    else WEIGHT_CAPACITY * 0.5
  else 0

/-- `VenueMatcher._score_price`.  `not venue.base_price and not venue.min_spend`
is Python truthiness (absent or zero); `venue.base_price or 0` yields `0` for
an absent value, which coincides with `Option.getD 0`. -/
def score_price (venue : Venue) (brief : Brief) : ℚ :=
  if ¬ truthyNum venue.base_price ∧ ¬ truthyNum venue.min_spend then
    WEIGHT_PRICE * 0.5
  else
    let venue_cost := max (venue.base_price.getD 0) (venue.min_spend.getD 0)
    if venue_cost ≤ brief.budget_max then
      if truthyNum brief.budget_min ∧ venue_cost ≥ brief.budget_min.getD 0 then
        WEIGHT_PRICE
      else if ¬ truthyNum brief.budget_min then
        WEIGHT_PRICE
      else
        WEIGHT_PRICE * 0.7
    else if venue_cost ≤ brief.budget_max * 1.1 then
      WEIGHT_PRICE * 0.6
    else 0

/-- The `close_boroughs` dict literal of `VenueMatcher._score_location`,
looked up with `.get(pref_borough, [])`. -/
def close_boroughs (pref : String) : List String :=
  if pref = "manhattan" then ["brooklyn"]
  else if pref = "brooklyn" then ["manhattan"]
  else []

/-- `VenueMatcher._score_location`.  `if not brief.borough_pref` is truthiness
on an optional enum member (all members are non-empty strings, so only `None`
is falsy); `if brief.neighborhood_pref and venue.neighborhood` is truthiness on
two optional strings; the neighborhood test is Python's case-insensitive
substring containment `a.lower() in b.lower()`. -/
def score_location (venue : Venue) (brief : Brief) : ℚ :=
  match brief.borough_pref with
  | Option.none => WEIGHT_LOCATION
  | some pref =>
    if venue.borough = pref then
      if truthyStr brief.neighborhood_pref ∧ truthyStr venue.neighborhood then
        if containsChars ((brief.neighborhood_pref.getD "").toLower.toList)
            ((venue.neighborhood.getD "").toLower.toList) then
          WEIGHT_LOCATION
        else
          WEIGHT_LOCATION * 0.9
      else
        WEIGHT_LOCATION
    else
      if venue.borough.value ∈ close_boroughs pref.value then
        WEIGHT_LOCATION * 0.5
      else
        WEIGHT_LOCATION * 0.3

/-- `VenueMatcher._score_amenities`: a running sum over the three requirement
dimensions, each matched on the enum's string payload exactly as the Python
`if/elif` chains do (an unmatched value would contribute nothing). -/
def score_amenities (_venue : Venue) (brief : Brief) : ℚ :=
  let max_score := WEIGHT_AMENITIES
  let food :=
    if brief.food_bev_level.value = "none" then max_score * 0.33
    else if brief.food_bev_level.value = "light_bites" then max_score * 0.25
    else if brief.food_bev_level.value = "full_catering" then max_score * 0.20
    else 0
  let alcohol :=
    if brief.alcohol_level.value = "none" then max_score * 0.33
    else if brief.alcohol_level.value = "beer_wine" then max_score * 0.25
    else if brief.alcohol_level.value = "full_bar" then max_score * 0.20
    else 0
  let av :=
    if brief.av_needs.value = "none" then max_score * 0.34
    else if brief.av_needs.value = "basic_mic" then max_score * 0.25
    else if brief.av_needs.value = "full_setup" then max_score * 0.20
    else 0
  food + alcohol + av

/-- The five sub-scores recorded in the `details` dict built by
`VenueMatcher._score_venue` (`details['capacity']['score']`, ...).  The raw
echo fields of each sub-dict (venue range, budget, ...) are copies of venue and
brief fields and are reconstructed from those records where needed. -/
structure Breakdown where
  capacity : ℚ
  price : ℚ
  location : ℚ
  amenities : ℚ
  availability : ℚ
deriving DecidableEq, Repr

/-- `VenueMatcher._score_venue`: computes the five sub-scores (availability is
hard-coded to the full `WEIGHT_AVAILABILITY`), their sum as the total, and the
breakdown dict. -/
def score_venue (venue : Venue) (brief : Brief) : ℚ × Breakdown :=
  let capacity_score := score_capacity venue brief
  let price_score := score_price venue brief
  let location_score := score_location venue brief
  let amenities_score := score_amenities venue brief
  let availability_score := WEIGHT_AVAILABILITY
  let total_score :=
    capacity_score + price_score + location_score + amenities_score + availability_score
  (total_score,
   { capacity := capacity_score
     price := price_score
     location := location_score
     amenities := amenities_score
     availability := availability_score })

/-- One element of the list returned by `find_matches`: the
`(venue, score, match_details)` tuple. -/
structure ScoredVenue where
  venue : Venue
  score : ℚ
  details : Breakdown
deriving DecidableEq, Repr

/-- The scored list built by the loop in `VenueMatcher.find_matches` before
sorting: verified venues only (the DB query filter), scored, and kept only
when `score > 0`, in catalog enumeration order. -/
def eligible (venues : List Venue) (brief : Brief) : List ScoredVenue :=
  (venues.filter (fun v => v.verification_status = "verified")).filterMap
    (fun v =>
      let sd := score_venue v brief
      if sd.1 > 0 then some ⟨v, sd.1, sd.2⟩ else Option.none)

/-- The comparison used by `scored_venues.sort(key=lambda x: x[1], reverse=True)`:
descending by score.  Python's `list.sort` is a stable sort, embedded as the
(stable) `List.mergeSort`. -/
def sortLE (a b : ScoredVenue) : Bool := decide (b.score ≤ a.score)

/-- `VenueMatcher.find_matches`: query verified venues, score, drop zero
scores, stable-sort by score descending, truncate to `limit` (all call sites
pass the positive literal 10, so the Python slice `[:limit]` is `List.take`). -/
def find_matches (venues : List Venue) (brief : Brief) (limit : ℕ) : List ScoredVenue :=
  ((eligible venues brief).mergeSort sortLE).take limit

end VenueMatcher

/-! ## Explainer (`app/services/llm.py`, class `MatchExplainer`) -/

/-- The kinds of Python exceptions relevant to the embedded code paths. -/
inductive PyExc where
  | valueError
  | indexError
  | apiError
deriving DecidableEq, Repr

/-- The process environment as read by `MatchExplainer.__init__` via
`os.getenv("ANTHROPIC_API_KEY")` (`None` when the variable is unset). -/
structure Env where
  anthropic_api_key : Option String
deriving DecidableEq, Repr

/-- The outcome of one call to the external text-generation service
(`self.client.messages.create(...)`): on success the list of content blocks'
texts (`message.content`), otherwise the raised exception.  The service is not
code of this repository, so its outcome is an oracle input. -/
abbrev ApiOutcome := Except PyExc (List String)

/-- A constructed `MatchExplainer` (its only state is the client made from the
API key). -/
structure MatchExplainer where
  api_key : String
deriving DecidableEq, Repr

/-- `MatchExplainer.__init__`: reads `ANTHROPIC_API_KEY` and raises
`ValueError` when it is falsy (unset or empty). -/
def MatchExplainer.init (env : Env) : Except PyExc MatchExplainer :=
  match env.anthropic_api_key with
  | Option.none => .error .valueError
  | some k => if k = "" then .error .valueError else .ok ⟨k⟩

/-- Python `str` of a float as used in the fallback f-strings.  Integral
values render exactly as Python does (`5000.0`); the decimal rendering of
non-integral values is abstracted (no claim inspects those digits). -/
def pyFloatRepr (q : ℚ) : String :=
  if q.den = 1 then toString q.num ++ ".0"
  else toString q.num ++ "/" ++ toString q.den

/-- `venue.borough.value.replace('_', ' ').title()` for the five members. -/
def Borough.title : Borough → String
  | .manhattan => "Manhattan"
  | .brooklyn => "Brooklyn"
  | .queens => "Queens"
  | .bronx => "Bronx"
  | .staten_island => "Staten Island"

/-- `MatchExplainer._generate_fallback_explanation`: one bullet per category
whose sub-score clears its threshold, a closing bullet keyed to the total
score, and a generic bullet when none qualifies. -/
def fallback_explanation (venue : Venue) (brief : Brief) (score : ℚ)
    (match_details : VenueMatcher.Breakdown) : String :=
  let bullets : List String :=
    (if match_details.capacity > 20 then
      ["- Comfortably accommodates your " ++ toString brief.headcount ++
        " guests (capacity: " ++ toString venue.capacity_min ++ "-" ++
        toString venue.capacity_max ++ ")"]
     else [])
    ++ (if match_details.location > 15 then
      ["- Great location in " ++ venue.borough.title]
     else [])
    ++ (if match_details.price > 15 then
      ["- Within your budget of $" ++ pyFloatRepr brief.budget_max]
     else [])
    ++ (if match_details.amenities > 10 then
      ["- Has the amenities you need for your event"]
     else [])
    ++ (if score ≥ 80 then ["- Excellent overall match for your requirements"]
        else if score ≥ 60 then ["- Strong match for your event needs"]
        else [])
  if bullets.isEmpty then "- Matches your event requirements"
  else String.intercalate "\n" bullets

/-- The `try` block of `MatchExplainer.generate_explanation`: the service call
followed by `message.content[0].text` (an empty block list raises
`IndexError` inside the `try`). -/
def explain_attempt (api : ApiOutcome) : Except PyExc String :=
  match api with
  | .error e => .error e
  | .ok [] => .error .indexError
  | .ok (t :: _) => .ok t

/-- `MatchExplainer.generate_explanation`: returns the service text verbatim;
the `except Exception` arm converts any failure of the `try` block into the
deterministic fallback.  Every path returns a string. -/
def generate_explanation (_ex : MatchExplainer) (api : ApiOutcome) (venue : Venue)
    (brief : Brief) (score : ℚ) (match_details : VenueMatcher.Breakdown) : String :=
  match explain_attempt api with
  | .ok t => t
  | .error _ => fallback_explanation venue brief score match_details

/-- Obtaining an explanation from scratch, as the generation pipeline does:
construct the explainer (`MatchExplainer()`), then call it.  An exception in
either step surfaces as `Except.error`. -/
def obtain_explanation (env : Env) (api : ApiOutcome) (venue : Venue) (brief : Brief)
    (score : ℚ) (match_details : VenueMatcher.Breakdown) : Except PyExc String :=
  (MatchExplainer.init env).map
    (fun ex => generate_explanation ex api venue brief score match_details)

/-! ## Result persistence and generation pipeline
(`app/models/offer.py` `MatchResult`, `app/api/matching.py`) -/

/-- `MatchResult` ORM row (`app/models/offer.py`): autoincrement primary key
`id`, non-null foreign keys `brief_id` and `venue_id`, non-null `score` and
`rank`, nullable `explanation`.  Non-nullability is enforced by the field
types. -/
structure MatchResultRow where
  id : ℕ
  brief_id : ℕ
  venue_id : ℕ
  score : ℚ
  explanation : Option String
  rank : ℕ
deriving DecidableEq, Repr

/-- Whether a `match_results` table state satisfies every constraint the
schema declares: primary-key uniqueness of `id` and foreign-key references
into the existing briefs and venues.  The `brief_id`, `venue_id`, `rank` and
`created_at` columns carry plain (non-unique) indexes and no further
constraints. -/
def match_results_admits (briefIds venueIds : List ℕ) (rows : List MatchResultRow) : Prop :=
  (rows.map (·.id)).Nodup ∧
    ∀ r ∈ rows, r.brief_id ∈ briefIds ∧ r.venue_id ∈ venueIds

instance (briefIds venueIds : List ℕ) (rows : List MatchResultRow) :
    Decidable (match_results_admits briefIds venueIds rows) := by
  unfold match_results_admits; infer_instance

/-- The persisted `match_results` table together with the autoincrement
counter the database uses to assign the next primary key. -/
structure MatchDB where
  rows : List MatchResultRow
  nextId : ℕ
deriving DecidableEq, Repr

/-- `db.query(MatchResult).filter(MatchResult.brief_id == brief_id).count()`. -/
def count_results (db : MatchDB) (briefId : ℕ) : ℕ :=
  (db.rows.filter (fun r => r.brief_id = briefId)).length

/-- `_generate_and_store_matches` (`app/api/matching.py`): construct the
services, run `find_matches(brief, limit=10)`, generate one explanation per
result (rank-indexed oracle `api`), build the rows with 1-based ranks and
commit them all.  The surrounding `try/except` rolls the transaction back on
any exception and re-raises: in the embedded failure case —
`MatchExplainer()` raising `ValueError` on a falsy `ANTHROPIC_API_KEY` — the
table is left unchanged.  The per-item `try/except` around
`generate_explanation` is dead code here because `generate_explanation`
already returns on every path. -/
def generate_and_store_matches (db : MatchDB) (catalog : List Venue) (brief : Brief)
    (env : Env) (api : ℕ → ApiOutcome) : MatchDB :=
  match MatchExplainer.init env with
  | .error _ => db
  | .ok ex =>
    let scored := VenueMatcher.find_matches catalog brief 10
    let newRows := scored.enum.map (fun p =>
      { id := db.nextId + p.1
        brief_id := brief.id
        venue_id := p.2.venue.id
        score := p.2.score
        explanation := some (generate_explanation ex (api (p.1 + 1)) p.2.venue brief
          p.2.score p.2.details)
        rank := p.1 + 1 : MatchResultRow })
    ⟨db.rows ++ newRows, db.nextId + newRows.length⟩

/-- The response bodies of `POST /matching/briefs/{id}/generate` relevant to
idempotency: the short-circuit "Matches already exist for this brief" with its
`match_count`, or "Matching started" with the background task scheduled. -/
inductive GenerateResponse where
  | alreadyExist (match_count : ℕ)
  | started
deriving DecidableEq, Repr

/-- `generate_matches` (`app/api/matching.py`), after the 404/permission
guards: count the existing results for the brief; short-circuit when any
exist, otherwise run the background generation task.  The returned pair is
the response and the table state once the background task (embedded to
completion) has run. -/
def generate_matches (db : MatchDB) (catalog : List Venue) (brief : Brief)
    (env : Env) (api : ℕ → ApiOutcome) : GenerateResponse × MatchDB :=
  let existing_matches := count_results db brief.id
  if existing_matches > 0 then
    (.alreadyExist existing_matches, db)
  else
    (.started, generate_and_store_matches db catalog brief env api)

/-! ## Spec-side scoring formulas

For the refinement claims about individual sub-scorers, a second definition is
written from the specification's words (never from the code) and compared with
the embedded source function. -/

namespace SpecSide

/-- Capacity sub-score as the specification words it: full weight 30 inside
the venue's range; above the maximum, 70% (21) within the 20% tolerance and 0
beyond it; below the minimum, 70% (21) within the 20% tolerance and 50% (15)
otherwise. -/
def capacity_score_spec (venue : Venue) (brief : Brief) : ℚ :=
  if venue.capacity_min ≤ brief.headcount ∧ brief.headcount ≤ venue.capacity_max then 30
  else if brief.headcount > venue.capacity_max then
    if (brief.headcount : ℚ) ≤ 1.2 * (venue.capacity_max : ℚ) then 0.7 * 30 else 0
  else
    if (brief.headcount : ℚ) ≥ 0.8 * (venue.capacity_min : ℚ) then 0.7 * 30 else 0.5 * 30

/-- Price sub-score as the specification words it: 50% of 25 when the venue
has neither base price nor minimum spend; otherwise, with
`cost = max(base_price, min_spend)`, full weight when `cost ≤ budget_max`
except 70% when a `budget_min` is specified and `cost < budget_min`; 60% for
an overage up to 10%; else 0. -/
def price_score_spec (venue : Venue) (brief : Brief) : ℚ :=
  if venue.base_price = Option.none ∧ venue.min_spend = Option.none then 0.5 * 25
  else
    let cost := max (venue.base_price.getD 0) (venue.min_spend.getD 0)
    if cost ≤ brief.budget_max then
      match brief.budget_min with
      | some m => if cost < m then 0.7 * 25 else 25
      | Option.none => 25
    else if cost ≤ 1.1 * brief.budget_max then 0.6 * 25
    else 0

/-- Location sub-score exactly as claim C8 words it: full weight with no
borough preference; on a borough match, full weight reduced to 90% (18)
whenever a neighborhood preference is given and does not case-insensitively
substring-match the venue's neighborhood (a venue with no recorded
neighborhood cannot be matched); across boroughs, 50% (10) exactly for the
Manhattan↔Brooklyn pair and 30% (6) otherwise. -/
def location_score_claim (venue : Venue) (brief : Brief) : ℚ :=
  match brief.borough_pref with
  | Option.none => 20
  | some pref =>
    if venue.borough = pref then
      if brief.neighborhood_pref ≠ Option.none ∧
          ¬ (match venue.neighborhood with
             | some nb => containsChars ((brief.neighborhood_pref.getD "").toLower.toList)
                 (nb.toLower.toList)
             | Option.none => false) = true then 0.9 * 20
      else 20
    else if (pref = .manhattan ∧ venue.borough = .brooklyn) ∨
        (pref = .brooklyn ∧ venue.borough = .manhattan) then 0.5 * 20
    else 0.3 * 20

/-- Location sub-score amended to what the code does: the 90% reduction
additionally requires the preference and the venue's recorded neighborhood to
be non-empty strings; a venue with no (or an empty) recorded neighborhood
keeps the full weight. -/
def location_score_amended (venue : Venue) (brief : Brief) : ℚ :=
  match brief.borough_pref with
  | Option.none => 20
  | some pref =>
    if venue.borough = pref then
      if truthyStr brief.neighborhood_pref ∧ truthyStr venue.neighborhood ∧
          ¬ containsChars ((brief.neighborhood_pref.getD "").toLower.toList)
              ((venue.neighborhood.getD "").toLower.toList) = true then 0.9 * 20
      else 20
    else if (pref = .manhattan ∧ venue.borough = .brooklyn) ∨
        (pref = .brooklyn ∧ venue.borough = .manhattan) then 0.5 * 20
    else 0.3 * 20

end SpecSide
/-! ## Concrete instances used by witnesses and counterexamples -/

/-- A verified Manhattan venue with capacity 50-100 and base price 4000. -/
def vLoft : Venue :=
  { id := 1, name := "Loft", borough := .manhattan, neighborhood := Option.none,
    capacity_min := 50, capacity_max := 100, base_price := some 4000,
    min_spend := Option.none, verification_status := "verified" }

/-- A plain 80-guest brief with a 5000 budget and no preferences. -/
def bPlain : Brief :=
  { id := 1, headcount := 80, borough_pref := Option.none,
    neighborhood_pref := Option.none, budget_min := Option.none, budget_max := 5000,
    food_bev_level := .none, alcohol_level := .none, av_needs := .none }

/-- The scored entry `find_matches [vLoft] bPlain 10` produces: full marks in
every category. -/
def rLoft : VenueMatcher.ScoredVenue :=
  { venue := vLoft, score := 100,
    details := { capacity := 30, price := 25, location := 20, amenities := 15,
                 availability := 10 } }

/-- A breakdown used when exercising the explainer. -/
def dHalf : VenueMatcher.Breakdown :=
  { capacity := 21, price := 15, location := 10, amenities := 5, availability := 10 }

/-- A brief preferring Manhattan and the SoHo neighborhood. -/
def bSoho : Brief :=
  { id := 2, headcount := 80, borough_pref := some .manhattan,
    neighborhood_pref := some "SoHo", budget_min := Option.none, budget_max := 5000,
    food_bev_level := .none, alcohol_level := .none, av_needs := .none }

/-- A brief whose headcount sits exactly at `vLoft`'s capacity maximum. -/
def bAtMax : Brief :=
  { id := 3, headcount := 100, borough_pref := Option.none,
    neighborhood_pref := Option.none, budget_min := Option.none, budget_max := 5000,
    food_bev_level := .none, alcohol_level := .none, av_needs := .none }

/-- A brief whose headcount is exactly 1.3 times `vLoft`'s capacity maximum. -/
def bOver : Brief :=
  { id := 4, headcount := 130, borough_pref := Option.none,
    neighborhood_pref := Option.none, budget_min := Option.none, budget_max := 5000,
    food_bev_level := .none, alcohol_level := .none, av_needs := .none }

/-- An environment with the API key set. -/
def envWithKey : Env := { anthropic_api_key := some "sk-key" }

/-- An environment without `ANTHROPIC_API_KEY`. -/
def envNoKey : Env := { anthropic_api_key := Option.none }

/-- A service oracle that fails every call. -/
def apiDown : ℕ → ApiOutcome := fun _ => .error .apiError

/-- The empty `match_results` table. -/
def dbEmpty : MatchDB := { rows := [], nextId := 0 }

/-- One persisted match row for brief 1. -/
def rowOne : MatchResultRow :=
  { id := 1, brief_id := 1, venue_id := 1, score := 100, explanation := some "- ok",
    rank := 1 }

/-- A table already holding `rowOne` for brief 1. -/
def dbOne : MatchDB := { rows := [rowOne], nextId := 2 }

/-- First row of the duplicate pair. -/
def rowDupA : MatchResultRow :=
  { id := 1, brief_id := 1, venue_id := 1, score := 95, explanation := Option.none,
    rank := 1 }

/-- Second row of the duplicate pair: a different primary key, the same brief,
venue and rank. -/
def rowDupB : MatchResultRow :=
  { id := 2, brief_id := 1, venue_id := 1, score := 95, explanation := Option.none,
    rank := 1 }

/-- Two rows with distinct primary keys but the same brief, venue and rank:
the duplicate ranked set a lost idempotency race would persist. -/
def dupRows : List MatchResultRow := [rowDupA, rowDupB]


/-! ## Helper lemmas about the sub-scorers -/

namespace VenueMatcher

lemma score_capacity_mem (venue : Venue) (brief : Brief) :
    score_capacity venue brief = 30 ∨ score_capacity venue brief = 21 ∨
      score_capacity venue brief = 15 ∨ score_capacity venue brief = 0 := by
  unfold score_capacity WEIGHT_CAPACITY
  dsimp only
  split_ifs <;> norm_num

lemma score_capacity_nonneg (venue : Venue) (brief : Brief) :
    0 ≤ score_capacity venue brief := by
  rcases score_capacity_mem venue brief with h | h | h | h <;> rw [h] <;> norm_num

lemma score_capacity_le (venue : Venue) (brief : Brief) :
    score_capacity venue brief ≤ 30 := by
  rcases score_capacity_mem venue brief with h | h | h | h <;> rw [h] <;> norm_num

lemma score_price_mem (venue : Venue) (brief : Brief) :
    score_price venue brief = 12.5 ∨ score_price venue brief = 25 ∨
      score_price venue brief = 17.5 ∨ score_price venue brief = 15 ∨
      score_price venue brief = 0 := by
  unfold score_price WEIGHT_PRICE
  dsimp only
  split_ifs <;> norm_num

lemma score_price_nonneg (venue : Venue) (brief : Brief) :
    0 ≤ score_price venue brief := by
  rcases score_price_mem venue brief with h | h | h | h | h <;> rw [h] <;> norm_num

lemma score_price_le (venue : Venue) (brief : Brief) :
    score_price venue brief ≤ 25 := by
  rcases score_price_mem venue brief with h | h | h | h | h <;> rw [h] <;> norm_num

lemma score_location_mem (venue : Venue) (brief : Brief) :
    score_location venue brief = 20 ∨ score_location venue brief = 18 ∨
      score_location venue brief = 10 ∨ score_location venue brief = 6 := by
  unfold score_location WEIGHT_LOCATION
  cases brief.borough_pref with
  | none => norm_num
  | some pref =>
    dsimp only
    split_ifs <;> norm_num

lemma score_location_lb (venue : Venue) (brief : Brief) :
    6 ≤ score_location venue brief := by
  rcases score_location_mem venue brief with h | h | h | h <;> rw [h] <;> norm_num

lemma score_location_le (venue : Venue) (brief : Brief) :
    score_location venue brief ≤ 20 := by
  rcases score_location_mem venue brief with h | h | h | h <;> rw [h] <;> norm_num

lemma score_amenities_bounds (venue : Venue) (brief : Brief) :
    9 ≤ score_amenities venue brief ∧ score_amenities venue brief ≤ 15 := by
  unfold score_amenities WEIGHT_AMENITIES
  cases brief.food_bev_level <;> cases brief.alcohol_level <;> cases brief.av_needs <;>
    simp [FoodBevLevel.value, AlcoholLevel.value, AVNeeds.value] <;> norm_num

lemma score_venue_total (venue : Venue) (brief : Brief) :
    (score_venue venue brief).1 =
      score_capacity venue brief + score_price venue brief + score_location venue brief +
        score_amenities venue brief + WEIGHT_AVAILABILITY := rfl

lemma score_venue_details (venue : Venue) (brief : Brief) :
    (score_venue venue brief).2 =
      ⟨score_capacity venue brief, score_price venue brief, score_location venue brief,
        score_amenities venue brief, WEIGHT_AVAILABILITY⟩ := rfl

lemma score_venue_lb (venue : Venue) (brief : Brief) :
    25 ≤ (score_venue venue brief).1 := by
  rw [score_venue_total]
  have h1 := score_capacity_nonneg venue brief
  have h2 := score_price_nonneg venue brief
  have h3 := score_location_lb venue brief
  have h4 := (score_amenities_bounds venue brief).1
  unfold WEIGHT_AVAILABILITY
  linarith

lemma score_venue_pos (venue : Venue) (brief : Brief) :
    0 < (score_venue venue brief).1 := lt_of_lt_of_le (by norm_num) (score_venue_lb venue brief)

lemma score_venue_ub (venue : Venue) (brief : Brief) :
    (score_venue venue brief).1 ≤ 100 := by
  rw [score_venue_total]
  have h1 := score_capacity_le venue brief
  have h2 := score_price_le venue brief
  have h3 := score_location_le venue brief
  have h4 := (score_amenities_bounds venue brief).2
  unfold WEIGHT_AVAILABILITY
  linarith

end VenueMatcher

/-! ## Helper lemmas about `find_matches` -/

namespace VenueMatcher

lemma sortLE_trans (a b c : ScoredVenue) : sortLE a b → sortLE b c → sortLE a c := by
  simp only [sortLE, decide_eq_true_eq]
  exact fun h1 h2 => le_trans h2 h1

lemma sortLE_total (a b : ScoredVenue) : sortLE a b || sortLE b a := by
  simp only [sortLE, Bool.or_eq_true, decide_eq_true_eq]
  exact le_total b.score a.score

/-- Stability of the embedded sort: filtering the sorted list to any one score
value recovers the corresponding filtering of the input list, in input order. -/
lemma mergeSort_filter_score (l : List ScoredVenue) (s : ℚ) :
    (l.mergeSort sortLE).filter (fun r => r.score = s) = l.filter (fun r => r.score = s) := by
  have hpair : (l.filter (fun r => r.score = s)).Pairwise (fun a b => sortLE a b = true) := by
    refine List.pairwise_of_forall_mem_list ?_
    intro x hx y hy
    have hx' : x.score = s := by simpa using (List.mem_filter.1 hx).2
    have hy' : y.score = s := by simpa using (List.mem_filter.1 hy).2
    simp [sortLE, hx', hy']
  have hsub : List.Sublist (l.filter (fun r => r.score = s)) (l.mergeSort sortLE) :=
    List.sublist_mergeSort sortLE_trans sortLE_total hpair (List.filter_sublist l)
  have hsub2 : List.Sublist (l.filter (fun r => r.score = s))
      ((l.mergeSort sortLE).filter (fun r => r.score = s)) := by
    have h2 := List.Sublist.filter (fun r => decide (r.score = s)) hsub
    simpa using h2
  have hlen : ((l.mergeSort sortLE).filter (fun r => r.score = s)).length =
      (l.filter (fun r => r.score = s)).length :=
    ((l.mergeSort_perm sortLE).filter _).length_eq
  exact (hsub2.eq_of_length hlen.symm).symm

/-- Every venue passes the `score > 0` admission test, so `eligible` keeps one
entry per verified venue. -/
lemma eligible_length (venues : List Venue) (brief : Brief) :
    (eligible venues brief).length =
      (venues.filter (fun v => v.verification_status = "verified")).length := by
  unfold eligible
  induction venues.filter (fun v => v.verification_status = "verified") with
  | nil => rfl
  | cons v l ih =>
    rw [List.filterMap_cons]
    dsimp only
    rw [if_pos (score_venue_pos v brief)]
    simp [ih]

lemma mem_eligible {venues : List Venue} {brief : Brief} {r : ScoredVenue}
    (h : r ∈ eligible venues brief) :
    r.venue.verification_status = "verified" ∧ r.score = (score_venue r.venue brief).1 ∧
      0 < r.score := by
  unfold eligible at h
  obtain ⟨v, hv, hf⟩ := List.mem_filterMap.1 h
  dsimp only at hf
  split at hf
  · cases hf
    have hv' := (List.mem_filter.1 hv).2
    simp only [decide_eq_true_eq] at hv'
    exact ⟨hv', rfl, by assumption⟩
  · cases hf

lemma mem_eligible_of_mem_find_matches {venues : List Venue} {brief : Brief} {limit : ℕ}
    {r : ScoredVenue} (h : r ∈ find_matches venues brief limit) :
    r ∈ eligible venues brief := by
  unfold find_matches at h
  exact List.mem_mergeSort.1 ((List.take_sublist _ _).mem h)

lemma find_matches_length (venues : List Venue) (brief : Brief) (limit : ℕ) :
    (find_matches venues brief limit).length =
      min limit (venues.filter (fun v => v.verification_status = "verified")).length := by
  unfold find_matches
  rw [List.length_take, List.length_mergeSort, eligible_length]

lemma find_matches_sorted (venues : List Venue) (brief : Brief) (limit : ℕ) :
    (find_matches venues brief limit).Pairwise (fun a b => b.score ≤ a.score) := by
  unfold find_matches
  have hs := List.sorted_mergeSort sortLE_trans sortLE_total (eligible venues brief)
  have := hs.sublist (List.take_sublist limit _)
  exact this.imp (by simp [sortLE])

lemma find_matches_stable (venues : List Venue) (brief : Brief) (limit : ℕ) (s : ℚ) :
    List.Sublist ((find_matches venues brief limit).filter (fun r => r.score = s))
      ((eligible venues brief).filter (fun r => r.score = s)) := by
  unfold find_matches
  have h1 := List.Sublist.filter (fun r => decide (r.score = s))
    (List.take_sublist limit ((eligible venues brief).mergeSort sortLE))
  rw [mergeSort_filter_score] at h1
  exact h1

end VenueMatcher

namespace VenueMatcher

lemma score_capacity_eq_spec (venue : Venue) (brief : Brief) :
    score_capacity venue brief = SpecSide.capacity_score_spec venue brief := by
  unfold score_capacity SpecSide.capacity_score_spec WEIGHT_CAPACITY
  dsimp only
  generalize venue.capacity_min = mn
  generalize venue.capacity_max = mx
  generalize brief.headcount = hc
  split_ifs
  all_goals try norm_num
  all_goals try omega
  all_goals push_neg at *
  all_goals linarith

end VenueMatcher


namespace VenueMatcher

lemma price_branches (b : Brief) (cost : ℚ) (hc : 0 < cost) :
    (if cost ≤ b.budget_max then
      if truthyNum b.budget_min ∧ cost ≥ b.budget_min.getD 0 then WEIGHT_PRICE
      else if ¬ truthyNum b.budget_min then WEIGHT_PRICE else WEIGHT_PRICE * 0.7
     else if cost ≤ b.budget_max * 1.1 then WEIGHT_PRICE * 0.6 else 0)
    = (if cost ≤ b.budget_max then
        (match b.budget_min with
         | some m => if cost < m then 0.7 * 25 else (25 : ℚ)
         | Option.none => 25)
       else if cost ≤ 1.1 * b.budget_max then 0.6 * 25 else 0) := by
  rw [show b.budget_max * (1.1 : ℚ) = 1.1 * b.budget_max from mul_comm _ _]
  cases hbm : b.budget_min with
  | none =>
    simp only [truthyNum, WEIGHT_PRICE, Bool.false_eq_true, false_and, if_false,
      not_false_eq_true, if_true]
    split_ifs <;> norm_num
  | some m =>
    rcases eq_or_ne m 0 with rfl | hm
    · simp [truthyNum, WEIGHT_PRICE]
      split_ifs <;> (first | linarith | norm_num)
    · simp [truthyNum, WEIGHT_PRICE, hm]
      split_ifs <;> (first | linarith | norm_num)

end VenueMatcher


namespace VenueMatcher

lemma score_price_eq_spec (venue : Venue) (brief : Brief)
    (hbp : venue.base_price = Option.none ∨ ∃ p, venue.base_price = some p ∧ 0 < p)
    (hms : venue.min_spend = Option.none ∨ ∃ q, venue.min_spend = some q ∧ 0 < q) :
    score_price venue brief = SpecSide.price_score_spec venue brief := by
  rcases hbp with hbp | ⟨p, hbp, hp⟩ <;> rcases hms with hms | ⟨q, hms, hq⟩ <;>
    unfold score_price SpecSide.price_score_spec <;> rw [hbp, hms]
  · norm_num [truthyNum, WEIGHT_PRICE]
  · have h1 : ((¬ truthyNum (Option.none : Option ℚ) = true) ∧
        ¬ truthyNum (some q) = true) ↔ False := by simp [truthyNum, hq.ne']
    have h2 : ((Option.none : Option ℚ) = Option.none ∧
        (some q : Option ℚ) = Option.none) ↔ False := by simp
    simp only [h1, h2, if_false, Option.getD_none, Option.getD_some,
      show (max (0 : ℚ) q) = q from max_eq_right hq.le]
    exact price_branches brief q hq
  · have h1 : ((¬ truthyNum (some p) = true) ∧
        ¬ truthyNum (Option.none : Option ℚ) = true) ↔ False := by simp [truthyNum, hp.ne']
    have h2 : ((some p : Option ℚ) = Option.none ∧
        (Option.none : Option ℚ) = Option.none) ↔ False := by simp
    simp only [h1, h2, if_false, Option.getD_none, Option.getD_some,
      show (max p (0 : ℚ)) = p from max_eq_left hp.le]
    exact price_branches brief p hp
  · have h1 : ((¬ truthyNum (some p) = true) ∧
        ¬ truthyNum (some q) = true) ↔ False := by simp [truthyNum, hp.ne']
    have h2 : ((some p : Option ℚ) = Option.none ∧
        (some q : Option ℚ) = Option.none) ↔ False := by simp
    simp only [h1, h2, if_false, Option.getD_some]
    exact price_branches brief (max p q) (lt_max_iff.mpr (Or.inl hp))

end VenueMatcher


namespace VenueMatcher

lemma score_location_eq_amended (venue : Venue) (brief : Brief) :
    score_location venue brief = SpecSide.location_score_amended venue brief := by
  unfold score_location SpecSide.location_score_amended WEIGHT_LOCATION
  cases brief.borough_pref with
  | none => rfl
  | some pref =>
    dsimp only
    by_cases hb : venue.borough = pref
    · rw [if_pos hb, if_pos hb]
      split_ifs <;> (first | tauto | linarith | norm_num)
    · rw [if_neg hb, if_neg hb]
      cases hv : venue.borough <;> cases hp : pref <;>
        simp_all [close_boroughs, Borough.value] <;> norm_num

end VenueMatcher

/-! ## Support lemmas: pipeline and capacity corner cases -/

namespace VenueMatcher

lemma score_capacity_at_max (venue : Venue) (brief : Brief)
    (h1 : venue.capacity_min ≤ venue.capacity_max)
    (h2 : brief.headcount = venue.capacity_max) :
    score_capacity venue brief = 30 := by
  unfold score_capacity WEIGHT_CAPACITY
  dsimp only
  rw [if_pos (by omega)]

lemma score_capacity_at_130pct (venue : Venue) (brief : Brief)
    (h1 : 0 < venue.capacity_max)
    (h2 : (brief.headcount : ℚ) = 1.3 * (venue.capacity_max : ℚ)) :
    score_capacity venue brief = 0 := by
  have hq : (0 : ℚ) < (venue.capacity_max : ℚ) := by exact_mod_cast h1
  have hgt : brief.headcount > venue.capacity_max := by
    have h : ((venue.capacity_max : ℚ)) < (brief.headcount : ℚ) := by rw [h2]; linarith
    exact_mod_cast h
  have hnotin : ¬ (venue.capacity_min ≤ brief.headcount ∧
      brief.headcount ≤ venue.capacity_max) := by omega
  have hnotle : ¬ ((brief.headcount : ℚ) ≤ (venue.capacity_max : ℚ) * 1.2) := by
    rw [h2]; push_neg; linarith
  unfold score_capacity WEIGHT_CAPACITY
  dsimp only
  rw [if_neg hnotin, if_pos hgt, if_neg hnotle]

end VenueMatcher

lemma generate_matches_existing (db : MatchDB) (catalog : List Venue) (brief : Brief)
    (env : Env) (api : ℕ → ApiOutcome) (h : 0 < count_results db brief.id) :
    generate_matches db catalog brief env api =
      (.alreadyExist (count_results db brief.id), db) := by
  unfold generate_matches
  dsimp only
  rw [if_pos h]

lemma generate_matches_empty_catalog_restarts :
    generate_matches dbEmpty [] bPlain envWithKey apiDown = (.started, dbEmpty) := by
  unfold generate_matches count_results dbEmpty generate_and_store_matches
  simp [MatchExplainer.init, envWithKey, VenueMatcher.find_matches, VenueMatcher.eligible,
    List.mergeSort]

lemma find_matches_vLoft : VenueMatcher.find_matches [vLoft] bPlain 10 = [rLoft] := by
  rw [VenueMatcher.find_matches,
    show VenueMatcher.eligible [vLoft] bPlain = [rLoft] from by
      norm_num [VenueMatcher.eligible, List.filterMap_cons, List.filter_cons,
        VenueMatcher.score_venue, VenueMatcher.score_capacity, VenueMatcher.score_price,
        VenueMatcher.score_location, VenueMatcher.score_amenities, vLoft, bPlain, rLoft,
        truthyNum, truthyStr, VenueMatcher.WEIGHT_CAPACITY, VenueMatcher.WEIGHT_PRICE,
        VenueMatcher.WEIGHT_LOCATION, VenueMatcher.WEIGHT_AMENITIES,
        VenueMatcher.WEIGHT_AVAILABILITY, FoodBevLevel.value, AlcoholLevel.value,
        AVNeeds.value]]
  simp [List.mergeSort]

/-! ## Claim theorems -/

open VenueMatcher SpecSide

/-- C1 (code bug): the spec requires that obtaining an explanation —
constructing the explainer and calling it — never fails outward, including on
missing external-service credentials.  At the failing input (no
`ANTHROPIC_API_KEY`), construction raises `ValueError` instead of falling back,
so obtaining an explanation is an error; the fallback conversion only protects
the call once construction has succeeded (the second and third conjuncts:
a service exception and a malformed empty response both yield the fallback). -/
theorem C1_missing_key_aborts_explanation :
    obtain_explanation envNoKey (.error .apiError) vLoft bPlain 50 dHalf =
      .error .valueError ∧
    generate_explanation ⟨"sk-key"⟩ (.error .apiError) vLoft bPlain 50 dHalf =
      fallback_explanation vLoft bPlain 50 dHalf ∧
    generate_explanation ⟨"sk-key"⟩ (.ok []) vLoft bPlain 50 dHalf =
      fallback_explanation vLoft bPlain 50 dHalf :=
  ⟨rfl, rfl, rfl⟩

/-- C2 (code bug): after a generation run that completed with zero persisted
rows (empty catalog), the table is exactly `dbEmpty` again; the claim says a
re-trigger must short-circuit through the idempotency guard like a non-empty
result set.  Instead the count-based guard passes (`0 > 0` is false) and the
endpoint reports `started`, re-running the matcher (which persists zero rows
once more). -/
theorem C2_empty_run_retriggers_generation :
    generate_matches dbEmpty [] bPlain envWithKey apiDown = (.started, dbEmpty) ∧
    GenerateResponse.started ≠ GenerateResponse.alreadyExist 0 :=
  ⟨generate_matches_empty_catalog_restarts, by simp⟩

/-- C3 (code bug): the claim (and the spec) require a hard storage-layer
uniqueness constraint on (brief, rank) or (brief, venue).  The declared schema
of `match_results` admits a state in which one brief holds two rows with the
same rank and the same venue — only the primary key is unique, so a racing
duplicate insert commits instead of failing. -/
theorem C3_schema_admits_duplicate_rank_and_venue :
    match_results_admits [1] [1] dupRows ∧
    ¬ (∀ r1 ∈ dupRows, ∀ r2 ∈ dupRows, r1 ≠ r2 → r1.brief_id = r2.brief_id →
        r1.rank ≠ r2.rank ∧ r1.venue_id ≠ r2.venue_id) := by
  constructor
  · constructor
    · simp [dupRows, rowDupA, rowDupB]
    · intro r hr
      simp only [dupRows, List.mem_cons, List.mem_singleton] at hr
      rcases hr with rfl | rfl | h
      · simp [rowDupA]
      · simp [rowDupB]
      · simp at h
  · intro h
    have hne : rowDupA ≠ rowDupB := by
      intro he
      have h2 := congrArg MatchResultRow.id he
      simp [rowDupA, rowDupB] at h2
    have := h rowDupA (by simp [dupRows]) rowDupB (by simp [dupRows]) hne rfl
    exact this.1 rfl

/-- C4 (confirmed): for a brief that already has at least one persisted
`MatchResult`, triggering generation again short-circuits: the response is
success-with-existing-count, the persisted table (hence the rank-ordered set)
is unchanged, and `count_results` after the call equals the count before. -/
theorem C4_regeneration_is_noop (db : MatchDB) (catalog : List Venue) (brief : Brief)
    (env : Env) (api : ℕ → ApiOutcome) (h : 0 < count_results db brief.id) :
    generate_matches db catalog brief env api =
      (.alreadyExist (count_results db brief.id), db) ∧
    (generate_matches db catalog brief env api).2.rows = db.rows ∧
    count_results (generate_matches db catalog brief env api).2 brief.id =
      count_results db brief.id := by
  have he := generate_matches_existing db catalog brief env api h
  exact ⟨he, by rw [he], by rw [he]⟩

/-- Witness for C4 at a concrete table already holding one row for the brief. -/
theorem C4_regeneration_is_noop_witness :
    generate_matches dbOne [] bPlain envWithKey apiDown =
      (.alreadyExist (count_results dbOne bPlain.id), dbOne) :=
  (C4_regeneration_is_noop dbOne [] bPlain envWithKey apiDown (by decide)).1

/-- C5 (confirmed): every sub-score lies between 0 and its weight
(capacity 30, price 25, location 20, amenities 15, availability 10), the total
returned by the scorer is exactly the sum of the five sub-scores of its
breakdown, and hence the total is in [0, 100]. -/
theorem C5_subscores_bounded_and_sum (venue : Venue) (brief : Brief) :
    (0 ≤ (score_venue venue brief).2.capacity ∧ (score_venue venue brief).2.capacity ≤ 30) ∧
    (0 ≤ (score_venue venue brief).2.price ∧ (score_venue venue brief).2.price ≤ 25) ∧
    (0 ≤ (score_venue venue brief).2.location ∧ (score_venue venue brief).2.location ≤ 20) ∧
    (0 ≤ (score_venue venue brief).2.amenities ∧ (score_venue venue brief).2.amenities ≤ 15) ∧
    (0 ≤ (score_venue venue brief).2.availability ∧
      (score_venue venue brief).2.availability ≤ 10) ∧
    (score_venue venue brief).1 =
      (score_venue venue brief).2.capacity + (score_venue venue brief).2.price +
        (score_venue venue brief).2.location + (score_venue venue brief).2.amenities +
        (score_venue venue brief).2.availability ∧
    0 ≤ (score_venue venue brief).1 ∧ (score_venue venue brief).1 ≤ 100 := by
  rw [score_venue_details, score_venue_total]
  refine ⟨⟨score_capacity_nonneg venue brief, score_capacity_le venue brief⟩,
    ⟨score_price_nonneg venue brief, score_price_le venue brief⟩,
    ⟨by linarith [score_location_lb venue brief], score_location_le venue brief⟩,
    ⟨by linarith [(score_amenities_bounds venue brief).1],
      (score_amenities_bounds venue brief).2⟩,
    ⟨by norm_num [WEIGHT_AVAILABILITY], by norm_num [WEIGHT_AVAILABILITY]⟩, rfl, ?_, ?_⟩
  · have := score_venue_lb venue brief
    rw [score_venue_total] at this
    linarith
  · have := score_venue_ub venue brief
    rw [score_venue_total] at this
    linarith

/-- C6 (confirmed): `find_matches` returns only venues with verification
status "verified", never one whose total score is 0, at most `limit` results,
sorted by score descending, and — stability — for every score value the
equal-score results appear in the catalog's enumeration order (they form a
sublist of the catalog-ordered eligible list). -/
theorem C6_find_matches_contract (venues : List Venue) (brief : Brief) (limit : ℕ) :
    (∀ r ∈ find_matches venues brief limit,
      r.venue.verification_status = "verified" ∧ r.score ≠ 0) ∧
    (find_matches venues brief limit).length ≤ limit ∧
    (find_matches venues brief limit).Pairwise (fun a b => b.score ≤ a.score) ∧
    (∀ s : ℚ, List.Sublist ((find_matches venues brief limit).filter (fun r => r.score = s))
      ((eligible venues brief).filter (fun r => r.score = s))) := by
  refine ⟨?_, ?_, find_matches_sorted venues brief limit, find_matches_stable venues brief limit⟩
  · intro r hr
    obtain ⟨hv, -, hpos⟩ := mem_eligible (mem_eligible_of_mem_find_matches hr)
    exact ⟨hv, ne_of_gt hpos⟩
  · rw [find_matches_length]
    exact min_le_left _ _

/-- Witness for C6 on a concrete one-venue catalog: the returned entry is
verified and has nonzero score. -/
theorem C6_find_matches_contract_witness :
    rLoft.venue.verification_status = "verified" ∧ rLoft.score ≠ 0 :=
  (C6_find_matches_contract [vLoft] bPlain 10).1 rLoft
    (by rw [find_matches_vLoft]; exact List.mem_singleton.mpr rfl)

/-- C7 (confirmed): over venues whose optional prices are absent or positive
(the API validators enforce `gt=0` on both price fields), the price sub-score
is exactly the specification's formula: 12.5 with no pricing data; otherwise,
with `cost = max(base_price, min_spend)`, 25 when `cost ≤ budget_max` —
reduced to 17.5 when a `budget_min` is specified and `cost < budget_min` —
15 when `budget_max < cost ≤ 1.1·budget_max`, and 0 beyond. -/
theorem C7_price_subscore_matches_spec (venue : Venue) (brief : Brief)
    (hbp : venue.base_price = Option.none ∨ ∃ p, venue.base_price = some p ∧ 0 < p)
    (hms : venue.min_spend = Option.none ∨ ∃ q, venue.min_spend = some q ∧ 0 < q) :
    score_price venue brief = price_score_spec venue brief :=
  score_price_eq_spec venue brief hbp hms

/-- Witness for C7 at a venue with a positive base price and no minimum
spend. -/
theorem C7_price_subscore_matches_spec_witness :
    score_price vLoft bPlain = price_score_spec vLoft bPlain :=
  C7_price_subscore_matches_spec vLoft bPlain
    (Or.inr ⟨4000, rfl, by norm_num⟩) (Or.inl rfl)

/-- C8 counterexample: a brief preferring Manhattan/SoHo against a Manhattan
venue with no recorded neighborhood.  The claim's formula demands the 90%
reduction (18) because the given preference cannot substring-match; the code
returns the full weight 20 whenever the venue has no neighborhood on file. -/
theorem C8_counterexample_missing_neighborhood :
    score_location vLoft bSoho = 20 ∧ location_score_claim vLoft bSoho = 18 ∧
      score_location vLoft bSoho ≠ location_score_claim vLoft bSoho := by
  have h1 : score_location vLoft bSoho = 20 := by
    norm_num [score_location, vLoft, bSoho, truthyStr, WEIGHT_LOCATION]
  have h2 : location_score_claim vLoft bSoho = 18 := by
    simp only [location_score_claim, vLoft, bSoho]
    norm_num [Option.some_ne_none]
  exact ⟨h1, h2, by rw [h1, h2]; norm_num⟩

/-- C8 (corrected): the location sub-score equals the claim's formula amended
in one place — the 90% reduction additionally requires the venue to have a
non-empty recorded neighborhood (and the preference to be non-empty); a venue
without one keeps the full weight 20 on a borough match. -/
theorem C8_location_subscore_amended (venue : Venue) (brief : Brief) :
    score_location venue brief = location_score_amended venue brief :=
  score_location_eq_amended venue brief

/-- C9 (confirmed): the capacity sub-score is exactly the specification's
piecewise formula; in particular a headcount equal to `capacity_max` scores
the full 30 (given the data-model invariant `capacity_min ≤ capacity_max`),
and a headcount of 1.3×`capacity_max` (with positive capacity) scores 0. -/
theorem C9_capacity_subscore_matches_spec :
    (∀ venue brief, score_capacity venue brief = capacity_score_spec venue brief) ∧
    (∀ venue brief, venue.capacity_min ≤ venue.capacity_max →
      brief.headcount = venue.capacity_max → score_capacity venue brief = 30) ∧
    (∀ venue brief, 0 < venue.capacity_max →
      (brief.headcount : ℚ) = 1.3 * (venue.capacity_max : ℚ) →
      score_capacity venue brief = 0) :=
  ⟨score_capacity_eq_spec, score_capacity_at_max, score_capacity_at_130pct⟩

/-- Witness for C9: headcount 100 against capacity 50-100 scores 30;
headcount 130 = 1.3×100 scores 0. -/
theorem C9_capacity_subscore_matches_spec_witness :
    score_capacity vLoft bAtMax = 30 ∧ score_capacity vLoft bOver = 0 :=
  ⟨C9_capacity_subscore_matches_spec.2.1 vLoft bAtMax (by norm_num [vLoft]) rfl,
   C9_capacity_subscore_matches_spec.2.2 vLoft bOver (by norm_num [vLoft])
     (by norm_num [vLoft, bOver])⟩

/-- C10 (confirmed): every total score is at least 25 (location contributes at
least 6, amenities at least 9, availability exactly 10), so the
score-greater-than-zero filter never excludes a verified venue and
`find_matches` returns exactly `min limit (number of verified venues)`
results. -/
theorem C10_total_floor_and_exact_count :
    (∀ venue brief, 6 ≤ score_location venue brief ∧ 9 ≤ score_amenities venue brief ∧
      (score_venue venue brief).2.availability = 10 ∧ 25 ≤ (score_venue venue brief).1) ∧
    (∀ (venues : List Venue) (brief : Brief) (limit : ℕ),
      (find_matches venues brief limit).length =
        min limit ((venues.filter (fun v => v.verification_status = "verified")).length)) :=
  ⟨fun venue brief =>
    ⟨score_location_lb venue brief, (score_amenities_bounds venue brief).1,
      by rw [score_venue_details]; rfl, score_venue_lb venue brief⟩,
   find_matches_length⟩
